import Mathlib

/-!
# Chapter10: a single-characteristic BLE peripheral (`main.c`)

A shallow embedding of `src/main.c`.  The program is a set of callbacks that
mutate three globals and call into the mbed BLE driver and the serial port.

* The globals are the fields of `World`.
* Every call into a collaborator (driver, serial port) is appended to
  `World.log`, oldest first, together with the value `bleDataWritten` had at
  the moment of the call.
* Memory reached through a `char *` is a function from byte offsets to byte
  values, so that a store beyond the end of an array is visible instead of
  being cut off by the type.
-/

namespace Chapter10

/-! ## Memory and the C library -/

/-- Bytes addressed by their offset from a base pointer. -/
abbrev Mem := Nat → Nat

/-- The bytes of a list laid out from offset 0; offsets beyond the list read 0. -/
def bytes (l : List Nat) : Mem := fun i => l.getD i 0

/-- The storage of a C string literal: its characters followed by the
terminating zero byte. -/
def cstr (s : String) : List Nat := s.toList.map Char.toNat ++ [0]

/-- The in-memory bytes of an array of `uint16_t` on the little-endian
Cortex-M target: low byte first. -/
def bytesLE16 (xs : List Nat) : List Nat :=
  xs.flatMap fun x => [x % 256, x / 256 % 256]

/-- The assignment `m[i] = v`. -/
def store (m : Mem) (i v : Nat) : Mem := fun j => if j = i then v else m j

/-- C library `memset(m + i, c, n)`: the `n` bytes from offset `i` become `c`. -/
def memset (m : Mem) (i c : Nat) : Nat → Mem
  | 0 => m
  | n + 1 => memset (store m i c) (i + 1) c n

/-- C library `strncpy(dst + i, src + i, n)` (ISO C 7.24.2.4): bytes of `src`
are copied while they are nonzero and fewer than `n` have been written; when a
zero byte is met, zero bytes are written until `n` bytes in all have been
written.  Exactly the offsets `i .. i + n - 1` of `dst` are stored to; the
size of the object `dst` points to plays no role. -/
def strncpyAt (dst src : Mem) (i : Nat) : Nat → Mem
  | 0 => dst
  | n + 1 =>
    if src i = 0 then memset dst i 0 (n + 1)
    else strncpyAt (store dst i (src i)) src (i + 1) n

/-- C library `strncpy(dst, src, n)`. -/
def strncpy (dst src : Mem) (n : Nat) : Mem := strncpyAt dst src 0 n

/-! ## Constants of `main.c` -/

/-- `const static char BROADCAST_NAME[] = "MyDevice";` - an array of
`sizeof "MyDevice"` bytes, the terminating zero included. -/
def BROADCAST_NAME : List Nat := cstr "MyDevice"

/-- `sizeof(BROADCAST_NAME)`. -/
def sizeof_BROADCAST_NAME : Nat := BROADCAST_NAME.length

/-- `static const uint16_t customServiceUuid = 0x180C;` -/
def customServiceUuid : Nat := 0x180C

/-- `static const uint16_t uuid16_list[] = { customServiceUuid };` -/
def uuid16_list : List Nat := [customServiceUuid]

/-- `sizeof(uuid16_list)`: two bytes for each entry. -/
def sizeof_uuid16_list : Nat := 2 * uuid16_list.length

/-- `static const uint8_t characteristicLength = 20;` -/
def characteristicLength : Nat := 20

/-- `static const uint16_t characteristicUuid = 0x2A56;` -/
def characteristicUuid : Nat := 0x2A56

/-- `static const uint8_t* bleReadReceiptMessage = "ready";` - a pointer to the
storage of the literal. -/
def bleReadReceiptMessage : List Nat := cstr "ready"

/-- `static uint16_t bleReadReceiptMessageLength = 5;` -/
def bleReadReceiptMessageLength : Nat := 5

/-! ## Constants of the mbed BLE API used by `main.c` -/

/-- Modelled from the spec: the error code that indicates success,
`BLE_ERROR_NONE`.  Its declaration is in the mbed header `blecommon.h`, which
is not part of the repository; the value is the one of that header. -/
def BLE_ERROR_NONE : Nat := 0

/-- Modelled from the spec: the id of the single default radio instance,
`BLE::DEFAULT_INSTANCE`.  Its declaration is in the mbed header `BLE.h`, which
is not part of the repository; the value is the one of that header. -/
def DEFAULT_INSTANCE : Nat := 0

/-- Modelled from the spec: the BR/EDR-not-supported bit of the advertising
flags byte, `GapAdvertisingData::BREDR_NOT_SUPPORTED`.  Its declaration is in
the mbed header `GapAdvertisingData.h`, which is not part of the repository;
the value is bit 2, as in that header. -/
def BREDR_NOT_SUPPORTED : Nat := 0x04

/-- Modelled from the spec: the LE-general-discoverable bit of the advertising
flags byte, `GapAdvertisingData::LE_GENERAL_DISCOVERABLE`.  Its declaration is
in the mbed header `GapAdvertisingData.h`, which is not part of the
repository; the value is bit 1, as in that header. -/
def LE_GENERAL_DISCOVERABLE : Nat := 0x02

/-- The advertising data types `main.c` passes to
`accumulateAdvertisingPayload`. -/
inductive DataType where
  | COMPLETE_LOCAL_NAME
  | COMPLETE_LIST_16BIT_SERVICE_IDS
deriving DecidableEq, Repr

/-- The advertising type `main.c` passes to `setAdvertisingType`. -/
inductive AdvertisingType where
  | ADV_CONNECTABLE_UNDIRECTED
deriving DecidableEq, Repr

/-- The characteristic property bits `main.c` combines with `|`. -/
inductive Property where
  | BLE_GATT_CHAR_PROPERTIES_READ
  | BLE_GATT_CHAR_PROPERTIES_WRITE
  | BLE_GATT_CHAR_PROPERTIES_NOTIFY
deriving DecidableEq, Repr

/-- The descriptor built by
`ReadWriteArrayGattCharacteristic<uint8_t, sizeof(characteristicValue)>`. -/
structure GattCharacteristic where
  uuid : Nat
  valueLength : Nat
  properties : List Property
deriving DecidableEq, Repr

/-- The descriptor built by `GattService(uuid, characteristics, count)`. -/
structure GattService where
  uuid : Nat
  characteristics : List GattCharacteristic
deriving DecidableEq, Repr

/-- The global `characteristic` of `main.c`. -/
def characteristic : GattCharacteristic :=
  { uuid := characteristicUuid
    valueLength := characteristicLength
    properties := [.BLE_GATT_CHAR_PROPERTIES_READ, .BLE_GATT_CHAR_PROPERTIES_WRITE,
      .BLE_GATT_CHAR_PROPERTIES_NOTIFY] }

/-- The global `characteristics[]` of `main.c`. -/
def characteristics : List GattCharacteristic := [characteristic]

/-- The global `customService` of `main.c`. -/
def customService : GattService :=
  { uuid := customServiceUuid, characteristics := characteristics }

/-! ## Calls into the collaborators -/

/-- The functions of `main.c` that are handed to the driver as callbacks. -/
inductive Callback where
  | onBleCharacteristicWritten
  | onCentralDisconnected
deriving DecidableEq, Repr

/-- A call `main.c` makes into the BLE driver or the serial port, with its
arguments.  A pointer argument is recorded as the storage it points to; the
accompanying length says how many of those bytes the callee reads.  The
variadic arguments of `printf` are not recorded. -/
inductive Call where
  | serialPrintf (format : String)
  | addService (service : GattService)
  | onDataWritten (callback : Callback)
  | onDisconnection (callback : Callback)
  | accumulateAdvertisingPayloadFlags (flags : Nat)
  | accumulateAdvertisingPayload (type : DataType) (data : List Nat) (len : Nat)
  | setAdvertisingType (advType : AdvertisingType)
  | setAdvertisingInterval (interval : Nat)
  | startAdvertising
  | gattServerWrite (attributeHandle : Nat) (value : List Nat) (size : Nat)
  | waitForEvent
deriving DecidableEq, Repr

/-- A logged call: the call and the value of `bleDataWritten` when it was
made. -/
structure Issued where
  call : Call
  pending : Bool
deriving DecidableEq, Repr

/-! ## Program state -/

/-- The globals of `main.c` and the log of calls made so far.

`bleCharacteristicValue` is the memory that starts at the first byte of the
array `char bleCharacteristicValue[characteristicLength]`: offsets `0 .. 19`
are the array, offsets from 20 on are whatever lies behind it.

Where the linker places the other globals is not modelled: the fields
`bleDataWritten` and `bleCharacteristicValueLength` are kept apart from the
memory behind the array.  A store at an offset from 20 on is a store outside
the array object (undefined behaviour in C) and may in a real build land on
one of these globals; after such a store the two fields are no longer what
the program holds.  They are the program's values as long as every store
stays below offset 20. -/
structure World where
  bleDataWritten : Bool
  bleCharacteristicValue : Mem
  bleCharacteristicValueLength : Nat
  log : List Issued

/-- Make a call into a collaborator. -/
def World.issue (w : World) (c : Call) : World :=
  { w with log := w.log ++ [{ call := c, pending := w.bleDataWritten }] }

/-- The calls made so far, oldest first. -/
def World.calls (w : World) : List Call := w.log.map Issued.call

/-- The globals as initialised at program start, before any call: the flag is
`false`, the array is zero-filled static storage, the length is 0. -/
def initialWorld : World :=
  { bleDataWritten := false
    bleCharacteristicValue := fun _ => 0
    bleCharacteristicValueLength := 0
    log := [] }

/-! ## Callback parameters -/

/-- The `BLE` object a callback receives; only its instance id is read. -/
structure BLE where
  instanceID : Nat

/-- Fields of `BLE::InitializationCompleteCallbackContext`. -/
structure InitializationCompleteCallbackContext where
  ble : BLE
  error : Nat

/-- Fields of `GattWriteCallbackParams` read by `main.c`: the attribute
handle, the payload length (`uint16_t`) and the payload pointer. -/
structure GattWriteCallbackParams where
  handle : Nat
  len : Nat
  data : Mem

/-- Fields of `Gap::DisconnectionCallbackParams_t`. -/
structure DisconnectionCallbackParams_t where
  handle : Nat
  reason : Nat

/-! ## The functions of `main.c` -/

/-- One pass through the body of `while (1)` in `main`.  `valueHandle` is what
`characteristic.getValueHandle()` returns (assigned by the driver). -/
def mainLoopBody (valueHandle : Nat) (w : World) : World :=
  let w :=
    if w.bleDataWritten then
      let w := { w with bleDataWritten := false }
      let w := w.issue (.serialPrintf "Data written to characteristic: %s\r\n")
      w.issue (.gattServerWrite valueHandle bleReadReceiptMessage bleReadReceiptMessageLength)
    else w
  w.issue .waitForEvent

/-- The callback `onBluetoothInitialized`. -/
def onBluetoothInitialized (w : World) (params : InitializationCompleteCallbackContext) :
    World :=
  let ble := params.ble
  let error := params.error
  if error ≠ BLE_ERROR_NONE then w
  else if ble.instanceID ≠ DEFAULT_INSTANCE then w
  else
    let w := w.issue (.serialPrintf "Describing Peripheral...")
    let w := w.issue (.addService customService)
    let w := w.issue (.onDataWritten .onBleCharacteristicWritten)
    let w := w.issue (.onDisconnection .onCentralDisconnected)
    let w := w.issue
      (.accumulateAdvertisingPayloadFlags (BREDR_NOT_SUPPORTED ||| LE_GENERAL_DISCOVERABLE))
    let w := w.issue
      (.accumulateAdvertisingPayload .COMPLETE_LOCAL_NAME BROADCAST_NAME sizeof_BROADCAST_NAME)
    let w := w.issue
      (.accumulateAdvertisingPayload .COMPLETE_LIST_16BIT_SERVICE_IDS (bytesLE16 uuid16_list)
        sizeof_uuid16_list)
    let w := w.issue (.setAdvertisingType .ADV_CONNECTABLE_UNDIRECTED)
    let w := w.issue (.setAdvertisingInterval 1000)
    let w := w.issue .startAdvertising
    w.issue (.serialPrintf " done\r\n")

/-- The callback `onBleCharacteristicWritten`.

The copy count is `params->len`, unchecked against `characteristicLength`.
For `params.len ≤ characteristicLength` (and for a handle that does not
match) the result is the program's state.  For a matching handle and
`params.len > characteristicLength` the copy stores behind the array; the
memory component shows those stores, but the flag and length of the result
are then subject to the proviso stated at `World`. -/
def onBleCharacteristicWritten (valueHandle : Nat) (w : World)
    (params : GattWriteCallbackParams) : World :=
  if params.handle = valueHandle then
    let w := { w with bleDataWritten := true }
    let w := { w with bleCharacteristicValueLength := params.len }
    { w with bleCharacteristicValue := strncpy w.bleCharacteristicValue params.data params.len }
  else w

/-- The callback `onCentralDisconnected`. -/
def onCentralDisconnected (w : World) (_params : DisconnectionCallbackParams_t) : World :=
  let w := w.issue .startAdvertising
  w.issue (.serialPrintf "Central disconnected\r\n")

/-! ## Event sequences -/

/-- What can happen once the main loop is running: the driver delivers a write
or a disconnection to its callback, or the loop body runs once. -/
inductive Event where
  | dataWritten (params : GattWriteCallbackParams)
  | disconnection (params : DisconnectionCallbackParams_t)
  | loopIteration

/-- The effect of one event. -/
def step (valueHandle : Nat) (w : World) : Event → World
  | .dataWritten params => onBleCharacteristicWritten valueHandle w params
  | .disconnection params => onCentralDisconnected w params
  | .loopIteration => mainLoopBody valueHandle w

/-- The effect of a sequence of events, first event first. -/
def run (valueHandle : Nat) (w : World) (es : List Event) : World :=
  es.foldl (step valueHandle) w

/-- Is this call the acknowledgment write-back (`ble.gattServer().write`)? -/
def isAck : Call → Bool
  | .gattServerWrite _ _ _ => true
  | _ => false

/-- Number of acknowledgment write-backs made so far. -/
def ackCount (w : World) : Nat := w.calls.countP isAck

/-- Is this event a write to the characteristic's value handle? -/
def isMatchingWrite (valueHandle : Nat) : Event → Bool
  | .dataWritten params => decide (params.handle = valueHandle)
  | _ => false

/-- Number of write events addressed to the characteristic's value handle. -/
def matchingWrites (valueHandle : Nat) (es : List Event) : Nat :=
  es.countP (isMatchingWrite valueHandle)

/-- The advertising set-up the driver has been given: the payload fields in
the order they were accumulated, the advertising type and the interval. -/
structure AdvertisingConfig where
  payload : List Call
  advType : Option AdvertisingType
  interval : Option Nat
deriving DecidableEq, Repr

/-- The effect of one call on the advertising set-up: only the three
configuration calls change it. -/
def AdvertisingConfig.apply (c : AdvertisingConfig) : Call → AdvertisingConfig
  | .accumulateAdvertisingPayloadFlags flags =>
    { c with payload := c.payload ++ [.accumulateAdvertisingPayloadFlags flags] }
  | .accumulateAdvertisingPayload type data len =>
    { c with payload := c.payload ++ [.accumulateAdvertisingPayload type data len] }
  | .setAdvertisingType advType => { c with advType := some advType }
  | .setAdvertisingInterval interval => { c with interval := some interval }
  | _ => c

/-- The advertising set-up that results from a sequence of calls. -/
def advertisingConfig (calls : List Call) : AdvertisingConfig :=
  calls.foldl AdvertisingConfig.apply { payload := [], advType := none, interval := none }

/-- The ASCII codes of the characters of a string. -/
def ascii (s : String) : List Nat := s.toList.map Char.toNat

/-! ## Concrete inputs used in the examples below -/

/-- A write of the five bytes of "hello" to attribute handle 14. -/
def helloWrite : GattWriteCallbackParams :=
  { handle := 14, len := 5, data := bytes (ascii "hello") }

/-- A write of the three bytes 1, 0, 2 to attribute handle 14. -/
def zeroByteWrite : GattWriteCallbackParams :=
  { handle := 14, len := 3, data := bytes [1, 0, 2] }

/-- A write of the thirty bytes 1, 2, .., 30 to attribute handle 14. -/
def longWrite : GattWriteCallbackParams :=
  { handle := 14, len := 30, data := fun i => i + 1 }

/-- Does the event keep all stores inside the array?  A write event does when
its payload length is at most `characteristicLength`; the other events store
nothing into the array. -/
def fitsArray : Event → Bool
  | .dataWritten params => decide (params.len ≤ characteristicLength)
  | _ => true

/-- A world whose array holds the byte 7 everywhere and whose flag is set. -/
def sevensWorld : World :=
  { bleDataWritten := true
    bleCharacteristicValue := fun _ => 7
    bleCharacteristicValueLength := 20
    log := [] }

/-- An initialization-complete callback that reports success for the default
instance. -/
def initOk : InitializationCompleteCallbackContext :=
  { ble := { instanceID := DEFAULT_INSTANCE }, error := BLE_ERROR_NONE }

/-- An initialization-complete callback that reports error code 1. -/
def initFailed : InitializationCompleteCallbackContext :=
  { ble := { instanceID := DEFAULT_INSTANCE }, error := 1 }

/-- A successful initialization-complete callback for instance 1. -/
def initOtherInstance : InitializationCompleteCallbackContext :=
  { ble := { instanceID := 1 }, error := BLE_ERROR_NONE }

/-- Scenario 4: a write to the characteristic, a loop pass, a disconnection. -/
def scenario4 : List Event :=
  [.dataWritten helloWrite, .loopIteration, .disconnection { handle := 1, reason := 19 }]

/-! ## The C library functions -/

theorem store_apply (m : Mem) (i v j : Nat) :
    store m i v j = if j = i then v else m j := rfl

theorem memset_apply (c : Nat) (n : Nat) :
    ∀ (m : Mem) (i j : Nat), memset m i c n j = if i ≤ j ∧ j < i + n then c else m j := by
  induction n with
  | zero =>
    intro m i j
    have : ¬ (i ≤ j ∧ j < i + 0) := by omega
    rw [if_neg this, memset]
  | succ n ih =>
    intro m i j
    rw [memset, ih, store_apply]
    by_cases h1 : i + 1 ≤ j ∧ j < i + 1 + n
    · have h2 : i ≤ j ∧ j < i + (n + 1) := by omega
      simp [h1, h2]
    · by_cases h3 : j = i
      · have h2 : i ≤ j ∧ j < i + (n + 1) := by omega
        simp [h1, h2, h3]
      · have h2 : ¬ (i ≤ j ∧ j < i + (n + 1)) := by omega
        simp [h1, h2, h3]

/-- Offsets outside `i .. i + n - 1` are not touched by `strncpyAt`. -/
theorem strncpyAt_outside (src : Mem) (n : Nat) :
    ∀ (dst : Mem) (i j : Nat), j < i ∨ i + n ≤ j → strncpyAt dst src i n j = dst j := by
  induction n with
  | zero => intro dst i j _; rfl
  | succ n ih =>
    intro dst i j hj
    rw [strncpyAt]
    split
    · rw [memset_apply]
      have : ¬ (i ≤ j ∧ j < i + (n + 1)) := by omega
      simp [this]
    · rw [ih _ _ _ (by omega), store_apply]
      have : j ≠ i := by omega
      simp [this]

/-- A byte of the source that no zero byte precedes is copied. -/
theorem strncpyAt_copy (src : Mem) (n : Nat) :
    ∀ (dst : Mem) (i j : Nat), i ≤ j → j < i + n → (∀ k, i ≤ k → k ≤ j → src k ≠ 0) →
      strncpyAt dst src i n j = src j := by
  induction n with
  | zero => intro dst i j h1 h2; omega
  | succ n ih =>
    intro dst i j h1 h2 hnz
    rw [strncpyAt, if_neg (hnz i (le_refl i) h1)]
    by_cases hji : j = i
    · subst hji
      rw [strncpyAt_outside src n _ _ _ (Or.inl (Nat.lt_succ_self j)), store_apply]
      simp
    · exact ih _ _ _ (by omega) (by omega) (fun k hk1 hk2 => hnz k (by omega) hk2)

/-- From the first zero byte of the source on, zero bytes are written. -/
theorem strncpyAt_pad (src : Mem) (n : Nat) :
    ∀ (dst : Mem) (i j : Nat), i ≤ j → j < i + n → (∃ k, i ≤ k ∧ k ≤ j ∧ src k = 0) →
      strncpyAt dst src i n j = 0 := by
  induction n with
  | zero => intro dst i j h1 h2; omega
  | succ n ih =>
    intro dst i j h1 h2 hz
    rw [strncpyAt]
    split
    · rw [memset_apply]
      simp [h1, h2]
    · next hsi =>
      obtain ⟨k, hk1, hk2, hk3⟩ := hz
      have hki : k ≠ i := fun hki => hsi (hki ▸ hk3)
      exact ih _ _ _ (by omega) (by omega) ⟨k, by omega, hk2, hk3⟩

/-! ## The write callback -/

theorem onBleCharacteristicWritten_match (h : Nat) (w : World) (p : GattWriteCallbackParams)
    (hh : p.handle = h) :
    onBleCharacteristicWritten h w p =
      { bleDataWritten := true
        bleCharacteristicValue := strncpy w.bleCharacteristicValue p.data p.len
        bleCharacteristicValueLength := p.len
        log := w.log } := by
  simp [onBleCharacteristicWritten, hh]

/-- C1 as stated fails at a payload with a zero byte: the three bytes 1, 0, 2
are written to the characteristic's handle (14), the array held 7 everywhere;
afterwards offset 2 holds 0, not the payload byte 2, so the first `len` bytes
of the array differ from the payload. -/
theorem C1_counterexample_zero_byte :
    zeroByteWrite.handle = 14 ∧ zeroByteWrite.len ≤ characteristicLength ∧
    (onBleCharacteristicWritten 14 sevensWorld zeroByteWrite).bleCharacteristicValue 2 = 0 ∧
    zeroByteWrite.data 2 = 2 ∧
    ¬ (∀ i, i < zeroByteWrite.len →
        (onBleCharacteristicWritten 14 sevensWorld zeroByteWrite).bleCharacteristicValue i =
          zeroByteWrite.data i) := by
  refine ⟨rfl, by decide, rfl, rfl, fun hall => ?_⟩
  have h2 := hall 2 (by decide)
  exact absurd h2 (by decide)

/-- C1 (amended): for every write to the characteristic's value handle with
payload length L at most the capacity 20, afterwards the recorded length is L,
the pending flag is true, and every payload byte below L that has no zero byte
at or before it is stored at its offset, while an offset below L with a zero
byte at or before it holds 0; so a payload without zero bytes is stored
whole. -/
theorem C1_write_within_capacity (h : Nat) (w : World) (p : GattWriteCallbackParams)
    (hh : p.handle = h) (_hL : p.len ≤ characteristicLength) :
    (onBleCharacteristicWritten h w p).bleCharacteristicValueLength = p.len ∧
    (onBleCharacteristicWritten h w p).bleDataWritten = true ∧
    (∀ i, i < p.len → (∀ k, k ≤ i → p.data k ≠ 0) →
      (onBleCharacteristicWritten h w p).bleCharacteristicValue i = p.data i) ∧
    (∀ i, i < p.len → (∃ k, k ≤ i ∧ p.data k = 0) →
      (onBleCharacteristicWritten h w p).bleCharacteristicValue i = 0) ∧
    ((∀ k, k < p.len → p.data k ≠ 0) → ∀ i, i < p.len →
      (onBleCharacteristicWritten h w p).bleCharacteristicValue i = p.data i) := by
  rw [onBleCharacteristicWritten_match h w p hh]
  refine ⟨rfl, rfl, fun i hi hnz => ?_, fun i hi hz => ?_, fun hnz i hi => ?_⟩
  · exact strncpyAt_copy p.data p.len _ 0 i (Nat.zero_le i) (by omega) (fun k _ hk => hnz k hk)
  · obtain ⟨k, hk, hk0⟩ := hz
    exact strncpyAt_pad p.data p.len _ 0 i (Nat.zero_le i) (by omega) ⟨k, Nat.zero_le k, hk, hk0⟩
  · exact strncpyAt_copy p.data p.len _ 0 i (Nat.zero_le i) (by omega)
      (fun k _ hk => hnz k (by omega))

/-- C1 (amended) at scenario 1: the five bytes of "hello" written to handle 14
from the initial state. -/
theorem C1_write_within_capacity_witness :
    helloWrite.handle = 14 ∧ helloWrite.len ≤ characteristicLength ∧
    (onBleCharacteristicWritten 14 initialWorld helloWrite).bleCharacteristicValueLength = 5 ∧
    (onBleCharacteristicWritten 14 initialWorld helloWrite).bleDataWritten = true ∧
    (List.range 5).map (onBleCharacteristicWritten 14 initialWorld helloWrite).bleCharacteristicValue
      = ascii "hello" :=
  have t := C1_write_within_capacity 14 initialWorld helloWrite rfl (by decide)
  ⟨rfl, by decide, t.1, t.2.1, by decide⟩

/-- C2, the code at the failing input: thirty bytes 1 .. 30 are written to the
characteristic's handle (14).  Whatever the state before, the copy does not
stop at the end of the 20-byte array: the offsets 20 .. 29 behind the array
receive the payload bytes 21 .. 30 (shown here at the initial state as well,
where those offsets held 0).  The claim asks that nothing is written past
index 19. -/
theorem C2_overflow_at_long_write :
    longWrite.handle = 14 ∧ characteristicLength < longWrite.len ∧
    (∀ (w : World) (i : Nat), characteristicLength ≤ i → i < longWrite.len →
      (onBleCharacteristicWritten 14 w longWrite).bleCharacteristicValue i = i + 1) ∧
    (List.range 10).map (fun i => initialWorld.bleCharacteristicValue (20 + i)) =
      [0, 0, 0, 0, 0, 0, 0, 0, 0, 0] ∧
    (List.range 10).map
        (fun i => (onBleCharacteristicWritten 14 initialWorld longWrite).bleCharacteristicValue
          (20 + i)) =
      [21, 22, 23, 24, 25, 26, 27, 28, 29, 30] := by
  refine ⟨rfl, by decide, fun w i _ hi => ?_, by decide, by decide⟩
  rw [onBleCharacteristicWritten_match 14 w longWrite rfl]
  exact strncpyAt_copy longWrite.data longWrite.len _ 0 i (Nat.zero_le i) (by omega)
    (fun k _ _ => Nat.succ_ne_zero k)

/-- C3: a write event whose handle is not the characteristic's value handle
leaves the array, the recorded length and the pending flag as they were and
makes no call (the whole world, log included, is unchanged). -/
theorem C3_other_handle_unchanged (h : Nat) (w : World) (p : GattWriteCallbackParams)
    (hh : p.handle ≠ h) :
    onBleCharacteristicWritten h w p = w := by
  simp [onBleCharacteristicWritten, hh]

/-- C3 at a concrete input: "hello" written to handle 14 while the
characteristic's value handle is 15. -/
theorem C3_other_handle_unchanged_witness :
    helloWrite.handle ≠ 15 ∧ onBleCharacteristicWritten 15 sevensWorld helloWrite = sevensWorld :=
  ⟨by decide, C3_other_handle_unchanged 15 sevensWorld helloWrite (by decide)⟩

/-- C10: after a write of L bytes, L at most 20, to the characteristic's value
handle, with z the offset of the first zero byte of the payload (z = L when
there is none): offsets below z hold the payload bytes, offsets from z up to L
hold 0, and offsets from L up to 20 keep their previous value. -/
theorem C10_strncpy_postcondition (h : Nat) (w : World) (p : GattWriteCallbackParams) (z : Nat)
    (hh : p.handle = h) (_hL : p.len ≤ characteristicLength) (hz : z ≤ p.len)
    (hnz : ∀ j, j < z → p.data j ≠ 0) (hzero : z < p.len → p.data z = 0) :
    (∀ i, i < z → (onBleCharacteristicWritten h w p).bleCharacteristicValue i = p.data i) ∧
    (∀ i, z ≤ i → i < p.len → (onBleCharacteristicWritten h w p).bleCharacteristicValue i = 0) ∧
    (∀ i, p.len ≤ i → i < characteristicLength →
      (onBleCharacteristicWritten h w p).bleCharacteristicValue i = w.bleCharacteristicValue i) := by
  rw [onBleCharacteristicWritten_match h w p hh]
  refine ⟨fun i hi => ?_, fun i hzi hi => ?_, fun i hi _ => ?_⟩
  · exact strncpyAt_copy p.data p.len _ 0 i (Nat.zero_le i) (by omega)
      (fun k _ hk => hnz k (by omega))
  · exact strncpyAt_pad p.data p.len _ 0 i (Nat.zero_le i) (by omega)
      ⟨z, Nat.zero_le z, hzi, hzero (by omega)⟩
  · exact strncpyAt_outside p.data p.len _ 0 i (Or.inr (by omega))

/-- C10 at a concrete input: the bytes 1, 0, 2 (first zero at offset 1) are
written over an array of 7s; the array then starts 1, 0, 0 and keeps 7 from
offset 3 on: the payload byte 2 after the zero is not stored and the old
bytes behind the new length survive. -/
theorem C10_strncpy_postcondition_witness :
    zeroByteWrite.handle = 14 ∧ zeroByteWrite.len ≤ characteristicLength ∧ 1 ≤ zeroByteWrite.len ∧
    (∀ j, j < 1 → zeroByteWrite.data j ≠ 0) ∧ zeroByteWrite.data 1 = 0 ∧
    ((∀ i, i < 1 →
        (onBleCharacteristicWritten 14 sevensWorld zeroByteWrite).bleCharacteristicValue i =
          zeroByteWrite.data i) ∧
      (∀ i, 1 ≤ i → i < zeroByteWrite.len →
        (onBleCharacteristicWritten 14 sevensWorld zeroByteWrite).bleCharacteristicValue i = 0) ∧
      (∀ i, zeroByteWrite.len ≤ i → i < characteristicLength →
        (onBleCharacteristicWritten 14 sevensWorld zeroByteWrite).bleCharacteristicValue i =
          sevensWorld.bleCharacteristicValue i)) ∧
    (List.range 5).map
        (onBleCharacteristicWritten 14 sevensWorld zeroByteWrite).bleCharacteristicValue
      = [1, 0, 0, 7, 7] :=
  ⟨rfl, by decide, by decide, by decide, rfl,
    C10_strncpy_postcondition 14 sevensWorld zeroByteWrite 1 rfl (by decide) (by decide)
      (by decide) (fun _ => rfl),
    by decide⟩

/-! ## The main loop -/

theorem calls_issue (w : World) (c : Call) : (w.issue c).calls = w.calls ++ [c] := by
  simp [World.issue, World.calls]

theorem ackCount_issue (w : World) (c : Call) :
    ackCount (w.issue c) = ackCount w + if isAck c then 1 else 0 := by
  simp [ackCount, calls_issue, List.countP_append, List.countP_cons]

theorem mainLoopBody_pending (h : Nat) (w : World) (hp : w.bleDataWritten = true) :
    mainLoopBody h w =
      { bleDataWritten := false
        bleCharacteristicValue := w.bleCharacteristicValue
        bleCharacteristicValueLength := w.bleCharacteristicValueLength
        log := w.log ++
          [{ call := .serialPrintf "Data written to characteristic: %s\r\n", pending := false },
           { call := .gattServerWrite h bleReadReceiptMessage bleReadReceiptMessageLength,
             pending := false },
           { call := .waitForEvent, pending := false }] } := by
  simp [mainLoopBody, World.issue, hp]

theorem mainLoopBody_idle (h : Nat) (w : World) (hp : w.bleDataWritten = false) :
    mainLoopBody h w =
      { bleDataWritten := false
        bleCharacteristicValue := w.bleCharacteristicValue
        bleCharacteristicValueLength := w.bleCharacteristicValueLength
        log := w.log ++ [{ call := .waitForEvent, pending := false }] } := by
  simp [mainLoopBody, World.issue, hp]

theorem mainLoopBody_flag (h : Nat) (w : World) : (mainLoopBody h w).bleDataWritten = false := by
  cases hp : w.bleDataWritten
  · rw [mainLoopBody_idle h w hp]
  · rw [mainLoopBody_pending h w hp]

theorem mainLoopBody_ackCount (h : Nat) (w : World) :
    ackCount (mainLoopBody h w) = ackCount w + if w.bleDataWritten then 1 else 0 := by
  cases hp : w.bleDataWritten
  · rw [mainLoopBody_idle h w hp]
    simp [ackCount, World.calls, List.countP_append, List.countP_cons, isAck]
  · rw [mainLoopBody_pending h w hp]
    simp [ackCount, World.calls, List.countP_append, List.countP_cons, isAck]

theorem onCentralDisconnected_eq (w : World) (d : DisconnectionCallbackParams_t) :
    onCentralDisconnected w d =
      { w with log := w.log ++
          [{ call := .startAdvertising, pending := w.bleDataWritten },
           { call := .serialPrintf "Central disconnected\r\n", pending := w.bleDataWritten }] } := by
  simp [onCentralDisconnected, World.issue]

theorem onCentralDisconnected_ackCount (w : World) (d : DisconnectionCallbackParams_t) :
    ackCount (onCentralDisconnected w d) = ackCount w := by
  rw [onCentralDisconnected_eq]
  simp [ackCount, World.calls, List.countP_append, List.countP_cons, isAck]

theorem onBleCharacteristicWritten_ackCount (h : Nat) (w : World) (p : GattWriteCallbackParams) :
    ackCount (onBleCharacteristicWritten h w p) = ackCount w := by
  by_cases hh : p.handle = h
  · rw [onBleCharacteristicWritten_match h w p hh]; rfl
  · simp [onBleCharacteristicWritten, hh]

/-- The number of acknowledgments made plus one for a pending flag grows by at
most one per event, and only at a matching write. -/
theorem step_budget (h : Nat) (w : World) (e : Event) :
    ackCount (step h w e) + (if (step h w e).bleDataWritten then 1 else 0) ≤
      ackCount w + (if w.bleDataWritten then 1 else 0) +
        (if isMatchingWrite h e then 1 else 0) := by
  cases e with
  | dataWritten p =>
    simp only [step, onBleCharacteristicWritten_ackCount, isMatchingWrite]
    by_cases hh : p.handle = h
    · have hf : (onBleCharacteristicWritten h w p).bleDataWritten = true := by
        rw [onBleCharacteristicWritten_match h w p hh]
      simp only [hf, hh, decide_True, if_true]
      split <;> omega
    · simp [onBleCharacteristicWritten, hh]
  | disconnection d =>
    have hf : (onCentralDisconnected w d).bleDataWritten = w.bleDataWritten := by
      rw [onCentralDisconnected_eq]
    simp [step, onCentralDisconnected_ackCount, isMatchingWrite, hf]
  | loopIteration =>
    simp only [step, mainLoopBody_ackCount, mainLoopBody_flag, isMatchingWrite]
    simp

theorem run_budget (h : Nat) (es : List Event) :
    ∀ w : World, ackCount (run h w es) + (if (run h w es).bleDataWritten then 1 else 0) ≤
      ackCount w + (if w.bleDataWritten then 1 else 0) + matchingWrites h es := by
  induction es with
  | nil => intro w; simp [run, matchingWrites]
  | cons e es ih =>
    intro w
    have h1 := ih (step h w e)
    have h2 := step_budget h w e
    have h3 : matchingWrites h (e :: es) =
        matchingWrites h es + (if isMatchingWrite h e then 1 else 0) := by
      simp [matchingWrites, List.countP_cons]
    have h4 : run h w (e :: es) = run h (step h w e) es := rfl
    rw [h3, h4]
    omega

/-- C4: when the pending flag is true, one pass of the loop body ends with the
flag false and the array and recorded length unchanged; it makes, in order,
the log call, one `gattServer().write` to the characteristic's value handle
with the message "ready" and length 5, and one `waitForEvent`; the flag is
already false when each of these calls is made. -/
theorem C4_loop_body_acknowledges (h : Nat) (w : World) (hp : w.bleDataWritten = true) :
    (mainLoopBody h w).bleDataWritten = false ∧
    (mainLoopBody h w).bleCharacteristicValue = w.bleCharacteristicValue ∧
    (mainLoopBody h w).bleCharacteristicValueLength = w.bleCharacteristicValueLength ∧
    (mainLoopBody h w).log = w.log ++
      [{ call := .serialPrintf "Data written to characteristic: %s\r\n", pending := false },
       { call := .gattServerWrite h bleReadReceiptMessage bleReadReceiptMessageLength,
         pending := false },
       { call := .waitForEvent, pending := false }] ∧
    ackCount (mainLoopBody h w) = ackCount w + 1 ∧
    bleReadReceiptMessage.take bleReadReceiptMessageLength = ascii "ready" ∧
    bleReadReceiptMessageLength = 5 := by
  refine ⟨?_, ?_, ?_, ?_, ?_, by decide, rfl⟩
  · rw [mainLoopBody_pending h w hp]
  · rw [mainLoopBody_pending h w hp]
  · rw [mainLoopBody_pending h w hp]
  · rw [mainLoopBody_pending h w hp]
  · rw [mainLoopBody_ackCount, hp]; rfl

/-- C4 at scenario 1: the loop body run in the state left by the write of
"hello" to the characteristic's handle 14. -/
theorem C4_loop_body_acknowledges_witness :
    (onBleCharacteristicWritten 14 initialWorld helloWrite).bleDataWritten = true ∧
    (mainLoopBody 14 (onBleCharacteristicWritten 14 initialWorld helloWrite)).bleDataWritten
      = false ∧
    (mainLoopBody 14 (onBleCharacteristicWritten 14 initialWorld helloWrite)).calls =
      [.serialPrintf "Data written to characteristic: %s\r\n",
       .gattServerWrite 14 [114, 101, 97, 100, 121, 0] 5,
       .waitForEvent] :=
  have t := C4_loop_body_acknowledges 14 (onBleCharacteristicWritten 14 initialWorld helloWrite) rfl
  ⟨rfl, t.1, by decide⟩

/-- C5: for every state, the pending flag is false after one and after two
passes of the loop body; the first pass makes one acknowledgment write-back
if the flag was set and none if it was clear; the second pass makes none; so
two passes make at most one. -/
theorem C5_consumption_idempotent (h : Nat) (w : World) :
    (mainLoopBody h w).bleDataWritten = false ∧
    (mainLoopBody h (mainLoopBody h w)).bleDataWritten = false ∧
    ackCount (mainLoopBody h w) = ackCount w + (if w.bleDataWritten then 1 else 0) ∧
    ackCount (mainLoopBody h (mainLoopBody h w)) = ackCount (mainLoopBody h w) ∧
    ackCount (mainLoopBody h (mainLoopBody h w)) ≤ ackCount w + 1 := by
  have h1 := mainLoopBody_flag h w
  have h2 := mainLoopBody_ackCount h w
  have h3 := mainLoopBody_ackCount h (mainLoopBody h w)
  rw [h1] at h3
  refine ⟨h1, mainLoopBody_flag h _, h2, by simpa using h3, ?_⟩
  rw [h3, h2]
  split <;> simp

/-- At-most-once handling while every store stays inside the array: from any
state with the pending flag false, after any finite sequence of loop passes,
disconnection events and write events of payload length at most 20, the
number of acknowledgment write-backs made during the sequence is at most the
number of write events addressed to the characteristic's value handle; a loop
pass makes at most one; such an event that turns the flag from false to true
is a write to that handle, and one that turns it from true to false is a loop
pass. -/
theorem at_most_once_within_array (h : Nat) (w : World) (es : List Event)
    (hw : w.bleDataWritten = false) (_hfit : ∀ e, e ∈ es → fitsArray e = true) :
    ackCount (run h w es) ≤ ackCount w + matchingWrites h es ∧
    (∀ v : World, ackCount (mainLoopBody h v) ≤ ackCount v + 1) ∧
    (∀ (v : World) (e : Event), fitsArray e = true → v.bleDataWritten = false →
      (step h v e).bleDataWritten = true →
      ∃ p, e = .dataWritten p ∧ p.handle = h) ∧
    (∀ (v : World) (e : Event), fitsArray e = true → v.bleDataWritten = true →
      (step h v e).bleDataWritten = false → e = .loopIteration) := by
  refine ⟨?_, fun v => ?_, fun v e _ hv hs => ?_, fun v e _ hv hs => ?_⟩
  · have hb := run_budget h es w
    rw [hw] at hb
    simp only [Bool.false_eq_true, if_false, Nat.add_zero] at hb
    omega
  · rw [mainLoopBody_ackCount]
    split <;> omega
  · cases e with
    | dataWritten p =>
      by_cases hh : p.handle = h
      · exact ⟨p, rfl, hh⟩
      · simp [step, onBleCharacteristicWritten, hh, hv] at hs
    | disconnection d =>
      simp [step, onCentralDisconnected_eq, hv] at hs
    | loopIteration =>
      simp [step, mainLoopBody_flag] at hs
  · cases e with
    | dataWritten p =>
      by_cases hh : p.handle = h
      · simp [step, onBleCharacteristicWritten_match h v p hh] at hs
      · simp [step, onBleCharacteristicWritten, hh, hv] at hs
    | disconnection d =>
      simp [step, onCentralDisconnected_eq, hv] at hs
    | loopIteration => rfl

/-- At-most-once handling at a concrete sequence from the initial state: two
writes (5 and 3 bytes) to the characteristic's handle 14, a loop pass, a
disconnection and a second loop pass make one acknowledgment. -/
theorem at_most_once_within_array_witness :
    initialWorld.bleDataWritten = false ∧
    (∀ e, e ∈ [Event.dataWritten helloWrite, .dataWritten zeroByteWrite, .loopIteration,
       .disconnection { handle := 1, reason := 19 }, .loopIteration] → fitsArray e = true) ∧
    ackCount (run 14 initialWorld
      [.dataWritten helloWrite, .dataWritten zeroByteWrite, .loopIteration,
       .disconnection { handle := 1, reason := 19 }, .loopIteration]) = 1 ∧
    ackCount (run 14 initialWorld
      [.dataWritten helloWrite, .dataWritten zeroByteWrite, .loopIteration,
       .disconnection { handle := 1, reason := 19 }, .loopIteration]) ≤
      ackCount initialWorld + matchingWrites 14
        [.dataWritten helloWrite, .dataWritten zeroByteWrite, .loopIteration,
         .disconnection { handle := 1, reason := 19 }, .loopIteration] :=
  have hfit : ∀ e, e ∈ [Event.dataWritten helloWrite, .dataWritten zeroByteWrite,
      .loopIteration, .disconnection { handle := 1, reason := 19 }, .loopIteration] →
      fitsArray e = true := by
    intro e he
    simp only [List.mem_cons, List.mem_singleton, List.not_mem_nil, or_false] at he
    rcases he with he | he | he | he | he <;> subst he <;> rfl
  ⟨rfl, hfit, by decide, (at_most_once_within_array 14 initialWorld _ rfl hfit).1⟩

theorem onBluetoothInitialized_ok (w : World) (p : InitializationCompleteCallbackContext)
    (herr : p.error = BLE_ERROR_NONE) (hinst : p.ble.instanceID = DEFAULT_INSTANCE) :
    (onBluetoothInitialized w p).calls = w.calls ++
      [.serialPrintf "Describing Peripheral...",
       .addService customService,
       .onDataWritten .onBleCharacteristicWritten,
       .onDisconnection .onCentralDisconnected,
       .accumulateAdvertisingPayloadFlags (BREDR_NOT_SUPPORTED ||| LE_GENERAL_DISCOVERABLE),
       .accumulateAdvertisingPayload .COMPLETE_LOCAL_NAME BROADCAST_NAME sizeof_BROADCAST_NAME,
       .accumulateAdvertisingPayload .COMPLETE_LIST_16BIT_SERVICE_IDS (bytesLE16 uuid16_list)
         sizeof_uuid16_list,
       .setAdvertisingType .ADV_CONNECTABLE_UNDIRECTED,
       .setAdvertisingInterval 1000,
       .startAdvertising,
       .serialPrintf " done\r\n"] := by
  simp [onBluetoothInitialized, herr, hinst, World.issue, World.calls]

theorem onBluetoothInitialized_globals (w : World) (p : InitializationCompleteCallbackContext) :
    (onBluetoothInitialized w p).bleDataWritten = w.bleDataWritten ∧
    (onBluetoothInitialized w p).bleCharacteristicValue = w.bleCharacteristicValue ∧
    (onBluetoothInitialized w p).bleCharacteristicValueLength =
      w.bleCharacteristicValueLength := by
  by_cases herr : p.error = BLE_ERROR_NONE
  · by_cases hinst : p.ble.instanceID = DEFAULT_INSTANCE
    · have h : onBluetoothInitialized w p =
          { w with log := (onBluetoothInitialized w p).log } := by
        simp [onBluetoothInitialized, herr, hinst, World.issue]
      rw [h]
      exact ⟨rfl, rfl, rfl⟩
    · have h : onBluetoothInitialized w p = w := by
        simp [onBluetoothInitialized, hinst]
      rw [h]
      exact ⟨rfl, rfl, rfl⟩
  · have h : onBluetoothInitialized w p = w := by
      simp [onBluetoothInitialized, herr]
    rw [h]
    exact ⟨rfl, rfl, rfl⟩

theorem advertisingConfig_append (a b : List Call) :
    advertisingConfig (a ++ b) = b.foldl AdvertisingConfig.apply (advertisingConfig a) := by
  simp [advertisingConfig, List.foldl_append]

theorem onCentralDisconnected_calls (w : World) (d : DisconnectionCallbackParams_t) :
    (onCentralDisconnected w d).calls =
      w.calls ++ [.startAdvertising, .serialPrintf "Central disconnected\r\n"] := by
  simp [onCentralDisconnected_eq, World.calls]

/-- No event after initialization changes the advertising set-up. -/
theorem step_advertisingConfig (h : Nat) (w : World) (e : Event) :
    advertisingConfig (step h w e).calls = advertisingConfig w.calls := by
  cases e with
  | dataWritten p =>
    by_cases hh : p.handle = h
    · simp only [step]
      rw [onBleCharacteristicWritten_match h w p hh]
      rfl
    · simp [step, onBleCharacteristicWritten, hh]
  | disconnection d =>
    simp only [step]
    rw [onCentralDisconnected_calls, advertisingConfig_append]
    rfl
  | loopIteration =>
    simp only [step]
    cases hp : w.bleDataWritten
    · rw [mainLoopBody_idle h w hp]
      simp only [World.calls, List.map_append, advertisingConfig_append]
      rfl
    · rw [mainLoopBody_pending h w hp]
      simp only [World.calls, List.map_append, advertisingConfig_append]
      rfl

theorem run_advertisingConfig (h : Nat) (es : List Event) :
    ∀ w : World, advertisingConfig (run h w es).calls = advertisingConfig w.calls := by
  induction es with
  | nil => intro w; rfl
  | cons e es ih =>
    intro w
    have h4 : run h w (e :: es) = run h (step h w e) es := rfl
    rw [h4, ih, step_advertisingConfig]

theorem run_append (h : Nat) (w : World) (es fs : List Event) :
    run h w (es ++ fs) = run h (run h w es) fs := by
  simp [run, List.foldl_append]

/-- C7: an initialization-complete callback that reports an error, or reports
an instance other than the default one, changes nothing: no call is made (no
service, no handler, no advertising field, no start of advertising, no log
line) and the array, the length and the flag are as before. -/
theorem C7_failed_init_is_noop (w : World) (p : InitializationCompleteCallbackContext)
    (hbad : p.error ≠ BLE_ERROR_NONE ∨ p.ble.instanceID ≠ DEFAULT_INSTANCE) :
    onBluetoothInitialized w p = w := by
  unfold onBluetoothInitialized
  rcases hbad with herr | hinst
  · simp [herr]
  · simp [hinst]

/-- C7 at scenario 3 (the driver reports error code 1) and at a callback for
instance 1. -/
theorem C7_failed_init_is_noop_witness :
    (initFailed.error ≠ BLE_ERROR_NONE ∨ initFailed.ble.instanceID ≠ DEFAULT_INSTANCE) ∧
    onBluetoothInitialized initialWorld initFailed = initialWorld ∧
    (initOtherInstance.error ≠ BLE_ERROR_NONE ∨
      initOtherInstance.ble.instanceID ≠ DEFAULT_INSTANCE) ∧
    onBluetoothInitialized sevensWorld initOtherInstance = sevensWorld :=
  ⟨Or.inl (by decide), C7_failed_init_is_noop initialWorld initFailed (Or.inl (by decide)),
   Or.inr (by decide), C7_failed_init_is_noop sevensWorld initOtherInstance (Or.inr (by decide))⟩

/-- C8 as stated fails on the local-name field: after a successful
initialization from the initial state the only complete-local-name field that
was accumulated carries 9 bytes, the eight characters of "MyDevice" and a
zero byte, so no accumulated name field carries exactly the ASCII string
"MyDevice". -/
theorem C8_counterexample_name_field :
    initOk.error = BLE_ERROR_NONE ∧ initOk.ble.instanceID = DEFAULT_INSTANCE ∧
    Call.accumulateAdvertisingPayload .COMPLETE_LOCAL_NAME
        [77, 121, 68, 101, 118, 105, 99, 101, 0] 9 ∈
      (onBluetoothInitialized initialWorld initOk).calls ∧
    ¬ ∃ data len, Call.accumulateAdvertisingPayload .COMPLETE_LOCAL_NAME data len ∈
        (onBluetoothInitialized initialWorld initOk).calls ∧
      data.take len = ascii "MyDevice" := by
  refine ⟨rfl, rfl, by decide, ?_⟩
  rintro ⟨data, len, hmem, htake⟩
  rw [onBluetoothInitialized_ok initialWorld initOk rfl rfl] at hmem
  have hnil : initialWorld.calls = [] := rfl
  rw [hnil, List.nil_append] at hmem
  simp only [List.mem_cons, List.mem_singleton, List.not_mem_nil, or_false] at hmem
  rcases hmem with h | h | h | h | h | h | h | h | h | h | h
  all_goals cases h
  exact absurd htake (by decide)

/-- C8 (amended): a successful initialization-complete callback for the
default instance leaves the globals unchanged and makes exactly these calls
in this order: log, register the custom service (UUID 0x180C with the one
characteristic), register the write handler, register the disconnection
handler, accumulate the flags byte BR/EDR-not-supported | LE-general-
discoverable, accumulate the complete local name as the 9 bytes of "MyDevice"
followed by a zero byte, accumulate the complete list of 16-bit service UUIDs
as the single entry 0x180C (2 bytes, low byte first), set the type to
connectable-undirected, set the interval to 1000, start advertising (once),
log. -/
theorem C8_successful_init_calls (w : World) (p : InitializationCompleteCallbackContext)
    (herr : p.error = BLE_ERROR_NONE) (hinst : p.ble.instanceID = DEFAULT_INSTANCE) :
    (onBluetoothInitialized w p).calls = w.calls ++
      [.serialPrintf "Describing Peripheral...",
       .addService { uuid := 0x180C, characteristics := [characteristic] },
       .onDataWritten .onBleCharacteristicWritten,
       .onDisconnection .onCentralDisconnected,
       .accumulateAdvertisingPayloadFlags (BREDR_NOT_SUPPORTED ||| LE_GENERAL_DISCOVERABLE),
       .accumulateAdvertisingPayload .COMPLETE_LOCAL_NAME (ascii "MyDevice" ++ [0]) 9,
       .accumulateAdvertisingPayload .COMPLETE_LIST_16BIT_SERVICE_IDS (bytesLE16 [0x180C]) 2,
       .setAdvertisingType .ADV_CONNECTABLE_UNDIRECTED,
       .setAdvertisingInterval 1000,
       .startAdvertising,
       .serialPrintf " done\r\n"] ∧
    (onBluetoothInitialized w p).calls.count .startAdvertising =
      w.calls.count .startAdvertising + 1 ∧
    (onBluetoothInitialized w p).bleDataWritten = w.bleDataWritten ∧
    (onBluetoothInitialized w p).bleCharacteristicValue = w.bleCharacteristicValue ∧
    (onBluetoothInitialized w p).bleCharacteristicValueLength =
      w.bleCharacteristicValueLength := by
  have hc := onBluetoothInitialized_ok w p herr hinst
  refine ⟨hc, ?_, onBluetoothInitialized_globals w p⟩
  rw [hc, List.count_append]
  rfl

/-- C8 (amended) at the initial state: the eleven calls with their argument
bytes written out. -/
theorem C8_successful_init_calls_witness :
    initOk.error = BLE_ERROR_NONE ∧ initOk.ble.instanceID = DEFAULT_INSTANCE ∧
    (onBluetoothInitialized initialWorld initOk).calls =
      [.serialPrintf "Describing Peripheral...",
       .addService
         { uuid := 0x180C
           characteristics :=
             [{ uuid := 0x2A56, valueLength := 20,
                properties := [.BLE_GATT_CHAR_PROPERTIES_READ, .BLE_GATT_CHAR_PROPERTIES_WRITE,
                  .BLE_GATT_CHAR_PROPERTIES_NOTIFY] }] },
       .onDataWritten .onBleCharacteristicWritten,
       .onDisconnection .onCentralDisconnected,
       .accumulateAdvertisingPayloadFlags 6,
       .accumulateAdvertisingPayload .COMPLETE_LOCAL_NAME
         [77, 121, 68, 101, 118, 105, 99, 101, 0] 9,
       .accumulateAdvertisingPayload .COMPLETE_LIST_16BIT_SERVICE_IDS [0x0C, 0x18] 2,
       .setAdvertisingType .ADV_CONNECTABLE_UNDIRECTED,
       .setAdvertisingInterval 1000,
       .startAdvertising,
       .serialPrintf " done\r\n"] :=
  ⟨rfl, rfl, (C8_successful_init_calls initialWorld initOk rfl rfl).1⟩

/-- C6: after a successful initialization and any sequence of write events,
disconnection events and loop passes, the advertising set-up (payload
fields, type, interval) given to the driver is the one built at
initialization; every disconnection callback makes exactly a start-advertising
call and a log call, none of which changes that set-up; so after every
disconnection event the calls made so far end with a start-advertising call
(and its log line) issued under the set-up built at initialization. -/
theorem C6_reconnection (h : Nat) (w : World) (p : InitializationCompleteCallbackContext)
    (es : List Event)
    (herr : p.error = BLE_ERROR_NONE) (hinst : p.ble.instanceID = DEFAULT_INSTANCE) :
    (∀ (v : World) (d : DisconnectionCallbackParams_t),
      (onCentralDisconnected v d).calls =
        v.calls ++ [.startAdvertising, .serialPrintf "Central disconnected\r\n"] ∧
      advertisingConfig (onCentralDisconnected v d).calls = advertisingConfig v.calls) ∧
    advertisingConfig (onBluetoothInitialized w p).calls =
      { payload := (advertisingConfig w.calls).payload ++
          [.accumulateAdvertisingPayloadFlags (BREDR_NOT_SUPPORTED ||| LE_GENERAL_DISCOVERABLE),
           .accumulateAdvertisingPayload .COMPLETE_LOCAL_NAME BROADCAST_NAME
             sizeof_BROADCAST_NAME,
           .accumulateAdvertisingPayload .COMPLETE_LIST_16BIT_SERVICE_IDS (bytesLE16 uuid16_list)
             sizeof_uuid16_list]
        advType := some .ADV_CONNECTABLE_UNDIRECTED
        interval := some 1000 } ∧
    advertisingConfig (run h (onBluetoothInitialized w p) es).calls =
      advertisingConfig (onBluetoothInitialized w p).calls ∧
    (∀ d : DisconnectionCallbackParams_t,
      (run h (onBluetoothInitialized w p) (es ++ [.disconnection d])).calls =
        (run h (onBluetoothInitialized w p) es).calls ++
          [.startAdvertising, .serialPrintf "Central disconnected\r\n"] ∧
      advertisingConfig (run h (onBluetoothInitialized w p) (es ++ [.disconnection d])).calls =
        advertisingConfig (onBluetoothInitialized w p).calls) := by
  refine ⟨fun v d => ⟨onCentralDisconnected_calls v d, ?_⟩, ?_, run_advertisingConfig h es _,
    fun d => ⟨?_, run_advertisingConfig h _ _⟩⟩
  · exact step_advertisingConfig h v (.disconnection d)
  · rw [onBluetoothInitialized_ok w p herr hinst, advertisingConfig_append]
    simp [AdvertisingConfig.apply]
  · rw [run_append]
    exact onCentralDisconnected_calls _ d

/-- C6 at scenario 4: initialization from the initial state, then a write, a
loop pass and a disconnection (value handle 14). -/
theorem C6_reconnection_witness :
    initOk.error = BLE_ERROR_NONE ∧ initOk.ble.instanceID = DEFAULT_INSTANCE ∧
    advertisingConfig (run 14 (onBluetoothInitialized initialWorld initOk) scenario4).calls =
      advertisingConfig (onBluetoothInitialized initialWorld initOk).calls ∧
    advertisingConfig (onBluetoothInitialized initialWorld initOk).calls =
      { payload :=
          [.accumulateAdvertisingPayloadFlags 6,
           .accumulateAdvertisingPayload .COMPLETE_LOCAL_NAME
             [77, 121, 68, 101, 118, 105, 99, 101, 0] 9,
           .accumulateAdvertisingPayload .COMPLETE_LIST_16BIT_SERVICE_IDS [0x0C, 0x18] 2]
        advType := some .ADV_CONNECTABLE_UNDIRECTED
        interval := some 1000 } ∧
    ((run 14 (onBluetoothInitialized initialWorld initOk) scenario4).calls.drop 11 =
      [.serialPrintf "Data written to characteristic: %s\r\n",
       .gattServerWrite 14 [114, 101, 97, 100, 121, 0] 5,
       .waitForEvent,
       .startAdvertising,
       .serialPrintf "Central disconnected\r\n"]) :=
  ⟨rfl, rfl, (C6_reconnection 14 initialWorld initOk scenario4 rfl rfl).2.2.1, by decide,
    by decide⟩

end Chapter10
